import Mathlib

/-!
# Verification of the histocartography graph-building and explanation pipeline

Shallow embedding of `src/histocartography/graph_building/knn_graph_builder.py`
and `src/experiments/histo-graph/run_explainer.py`, together with the external
numeric utilities those files call (modelled from the spec where their source
is not in the repository snapshot).

Python dictionaries that may lack keys are modelled with `Option` fields and a
`getKey` accessor that returns the `KeyError` a Python dict raises; fallible
computations return `Except PyError`.
-/

/-- Errors observable from the embedded code. `keyError` is what Python raises
on a missing dict key; the remaining constructors are the error classes named
by the specification's error taxonomy, so that statements can distinguish
which failure actually occurs. -/
inductive PyError
  | keyError (key : String)
  | configurationError
  | invalidInputError
  | modelInvocationError
  | invalidConfigError
  deriving DecidableEq, Repr

/-- Python dict access `d[k]`: returns the value or raises `KeyError(k)`. -/
def getKey {α : Type} (o : Option α) (k : String) : Except PyError α :=
  match o with
  | some v => Except.ok v
  | none => Except.error (PyError.keyError k)

/-- One detected object handed to the graph builder: a dict with a `centroid`
(integer coordinates, stored into a `torch.LongTensor`) and a `label`
(categorical class id). The unused visual descriptor is omitted, as the
source's `_set_node_features` has the `VISUAL` line commented out. -/
structure PyObject where
  centroid : List Int
  label : Int
  deriving DecidableEq, Repr

/-- Configuration dict of the graph builder: the two keys the source reads,
each possibly missing. `edge_encoding` is only tested for truthiness. -/
structure Config where
  edge_threshold : Option Rat
  edge_encoding : Option Bool
  deriving DecidableEq, Repr

/-- The `dgl.DGLGraph` as the builder populates it: node count from
`add_nodes`, the two `ndata` arrays set by `_set_node_features`, and the
directed edge list passed to `add_edges`. -/
structure DGLGraph where
  num_nodes : Nat
  ndata_centroid : List (List Int)
  ndata_label : List Int
  edges : List (Nat × Nat)
  deriving DecidableEq, Repr

/-- Modelled from the spec: `compute_l2_distance` lives in
`histocartography.utils.vector`, which is not under `src/`. The spec fixes it
as the Euclidean distance on centroids. We represent the distance by its
square (a rational), which is faithful up to the monotone reparametrisation
`Real.sqrt`; only the composition with the monotonically decreasing kernel
`compute_edge_weight` is observable in the graph builder. -/
def compute_l2_distance (p q : List Int) : Rat :=
  ((List.zipWith (fun a b => (a - b) ^ 2) p q).sum : Int)

/-- Modelled from the spec: `compute_edge_weight` lives in
`histocartography.utils.vector`, which is not under `src/`. The spec's
contract: a monotonically decreasing function of distance, strictly positive
for all finite distances. We use the inverse kernel `1 / (1 + d)` on the
squared distance, which satisfies both requirements. -/
def compute_edge_weight (d : Rat) : Rat :=
  1 / (1 + d)

/-- `itertools.combinations(range(n), 2)`: all pairs `(i, j)` with
`i < j < n`, in lexicographic order. -/
def combinations2 (n : Nat) : List (Nat × Nat) :=
  (List.range n).flatMap fun i =>
    ((List.range n).filter fun j => decide (i < j)).map fun j => (i, j)

/-- Body of the pair loop of `KNNGraphBuilder._build_topology`: for each
combination `(i, j)` whose edge weight exceeds the threshold, append the pair
and its reverse to the edge list. -/
def topologyEdgeList (thr : Rat) (centroid : List (List Int)) (n : Nat) :
    List (Nat × Nat) :=
  (combinations2 n).flatMap fun p =>
    if thr <
        compute_edge_weight
          (compute_l2_distance (centroid.getD p.1 []) (centroid.getD p.2 []))
    then [p, (p.2, p.1)]
    else []

namespace KNNGraphBuilder

/-- `KNNGraphBuilder._build_topology`. The threshold
`self.config['edge_threshold']` is read inside the pair loop, so the dict
access (and hence a possible `KeyError`) happens only when at least one pair
exists, i.e. when there are at least two objects. -/
def build_topology (config : Config) (objects : List PyObject) :
    Except PyError (List (Nat × Nat)) :=
  let centroid := objects.map (fun obj => obj.centroid)
  if combinations2 objects.length = [] then Except.ok []
  else
    match getKey config.edge_threshold "edge_threshold" with
    | Except.error e => Except.error e
    | Except.ok thr => Except.ok (topologyEdgeList thr centroid objects.length)

/-- `KNNGraphBuilder.__call__`: create an empty `DGLGraph`, `add_nodes` for
every object, set node features, build the topology, then test
`self.config['edge_encoding']` (whose branch `_set_edge_embeddings` is a
no-op in the source: its body is empty). `image_size` is accepted and never
read. -/
def call (config : Config) (objects : List PyObject) (image_size : List Int) :
    Except PyError DGLGraph :=
  let num_objects := objects.length
  match build_topology config objects with
  | Except.error e => Except.error e
  | Except.ok edge_list =>
    match getKey config.edge_encoding "edge_encoding" with
    | Except.error e => Except.error e
    | Except.ok _enc =>
      Except.ok
        { num_nodes := num_objects
          ndata_centroid := objects.map (fun obj => obj.centroid)
          ndata_label := objects.map (fun obj => obj.label)
          edges := edge_list }

end KNNGraphBuilder

/-! ## Basic lemmas about the embedded graph builder -/

theorem mem_combinations2 {n : Nat} {p : Nat × Nat} :
    p ∈ combinations2 n ↔ p.1 < p.2 ∧ p.2 < n := by
  cases p with
  | mk i j =>
    simp only [combinations2, List.mem_flatMap, List.mem_map, List.mem_filter,
      List.mem_range, decide_eq_true_eq, Prod.mk.injEq]
    constructor
    · rintro ⟨a, ha, b, ⟨hb, hab⟩, rfl, rfl⟩
      exact ⟨hab, hb⟩
    · rintro ⟨hij, hj⟩
      exact ⟨i, lt_trans hij hj, j, ⟨hj, hij⟩, rfl, rfl⟩

theorem compute_l2_distance_comm (p q : List Int) :
    compute_l2_distance p q = compute_l2_distance q p := by
  unfold compute_l2_distance
  congr 1
  induction p generalizing q with
  | nil => cases q <;> rfl
  | cons a as ih =>
    cases q with
    | nil => rfl
    | cons b bs =>
      simp only [List.zipWith, List.sum_cons, ih]
      ring_nf

theorem mem_topologyEdgeList {thr : Rat} {c : List (List Int)} {n i j : Nat} :
    (i, j) ∈ topologyEdgeList thr c n ↔
      ∃ p : Nat × Nat, p.1 < p.2 ∧ p.2 < n ∧
        thr < compute_edge_weight
          (compute_l2_distance (c.getD p.1 []) (c.getD p.2 [])) ∧
        ((i, j) = p ∨ (i, j) = (p.2, p.1)) := by
  simp only [topologyEdgeList, List.mem_flatMap]
  constructor
  · rintro ⟨p, hp, hmem⟩
    rw [mem_combinations2] at hp
    by_cases hw : thr < compute_edge_weight
        (compute_l2_distance (c.getD p.1 []) (c.getD p.2 []))
    · simp only [if_pos hw, List.mem_cons, List.mem_singleton] at hmem
      rcases hmem with h | h | h
      · exact ⟨p, hp.1, hp.2, hw, Or.inl h⟩
      · exact ⟨p, hp.1, hp.2, hw, Or.inr h⟩
      · cases h
    · simp only [if_neg hw, List.not_mem_nil] at hmem
  · rintro ⟨p, h1, h2, hw, hp⟩
    refine ⟨p, mem_combinations2.mpr ⟨h1, h2⟩, ?_⟩
    simp only [if_pos hw, List.mem_cons, List.mem_singleton]
    tauto

theorem topologyEdgeList_swap {thr : Rat} {c : List (List Int)} {n i j : Nat}
    (h : (i, j) ∈ topologyEdgeList thr c n) : (j, i) ∈ topologyEdgeList thr c n := by
  rw [mem_topologyEdgeList] at h ⊢
  obtain ⟨⟨p1, p2⟩, h1, h2, hw, hp | hp⟩ := h <;>
    rw [Prod.mk.injEq] at hp
  · obtain ⟨rfl, rfl⟩ := hp
    exact ⟨(i, j), h1, h2, hw, Or.inr rfl⟩
  · obtain ⟨rfl, rfl⟩ := hp
    exact ⟨(j, i), h1, h2, hw, Or.inl rfl⟩

theorem topologyEdgeList_symm {thr : Rat} {c : List (List Int)} {n i j : Nat} :
    (i, j) ∈ topologyEdgeList thr c n ↔ (j, i) ∈ topologyEdgeList thr c n :=
  ⟨topologyEdgeList_swap, topologyEdgeList_swap⟩

theorem topologyEdgeList_no_loop {thr : Rat} {c : List (List Int)} {n i : Nat} :
    (i, i) ∉ topologyEdgeList thr c n := by
  rw [mem_topologyEdgeList]
  rintro ⟨⟨p1, p2⟩, h1, _, _, hp | hp⟩ <;>
    (rw [Prod.mk.injEq] at hp; obtain ⟨rfl, rfl⟩ := hp; exact lt_irrefl _ h1)

theorem mem_topologyEdgeList_iff_weight {thr : Rat} {c : List (List Int)}
    {n i j : Nat} (hij : i ≠ j) (hi : i < n) (hj : j < n) :
    (i, j) ∈ topologyEdgeList thr c n ↔
      thr < compute_edge_weight (compute_l2_distance (c.getD i []) (c.getD j [])) := by
  rw [mem_topologyEdgeList]
  constructor
  · rintro ⟨p, h1, h2, hw, hp | hp⟩ <;> cases hp
    · exact hw
    · rw [compute_l2_distance_comm]; exact hw
  · intro hw
    rcases lt_or_gt_of_ne hij with h | h
    · exact ⟨(i, j), h, hj, hw, Or.inl rfl⟩
    · refine ⟨(j, i), h, hi, ?_, Or.inr rfl⟩
      rw [compute_l2_distance_comm]; exact hw

theorem call_ok_inv {config : Config} {objects : List PyObject}
    {image_size : List Int} {g : DGLGraph}
    (h : KNNGraphBuilder.call config objects image_size = Except.ok g) :
    ∃ edge_list, KNNGraphBuilder.build_topology config objects = Except.ok edge_list ∧
      (∃ enc, config.edge_encoding = some enc) ∧
      g = ⟨objects.length, objects.map (fun o => o.centroid),
           objects.map (fun o => o.label), edge_list⟩ := by
  unfold KNNGraphBuilder.call at h
  cases hbt : KNNGraphBuilder.build_topology config objects with
  | error e => rw [hbt] at h; cases h
  | ok el =>
    rw [hbt] at h
    cases henc : config.edge_encoding with
    | none =>
      simp only [getKey, henc] at h
      exact Except.noConfusion h
    | some b =>
      simp only [getKey, henc, Except.ok.injEq] at h
      exact ⟨el, rfl, ⟨b, rfl⟩, h.symm⟩

theorem build_topology_ok_inv {config : Config} {objects : List PyObject}
    {el : List (Nat × Nat)}
    (h : KNNGraphBuilder.build_topology config objects = Except.ok el) :
    (combinations2 objects.length = [] ∧ el = []) ∨
    ∃ thr, config.edge_threshold = some thr ∧
      el = topologyEdgeList thr (objects.map (fun o => o.centroid)) objects.length := by
  unfold KNNGraphBuilder.build_topology at h
  by_cases hc : combinations2 objects.length = []
  · rw [if_pos hc] at h
    cases h
    exact Or.inl ⟨hc, rfl⟩
  · rw [if_neg hc] at h
    cases hthr : config.edge_threshold with
    | none =>
      simp only [getKey, hthr] at h
      exact Except.noConfusion h
    | some t =>
      simp only [getKey, hthr, Except.ok.injEq] at h
      exact Or.inr ⟨t, rfl, h.symm⟩

theorem combinations2_eq_nil_iff {n : Nat} : combinations2 n = [] ↔ n ≤ 1 := by
  rw [List.eq_nil_iff_forall_not_mem]
  constructor
  · intro h
    by_contra hn
    push_neg at hn
    exact h (0, 1) (mem_combinations2.mpr (by omega))
  · intro hn p hp
    rw [mem_combinations2] at hp
    omega

theorem map_getD_of_lt {α β : Type} (f : α → β) (l : List α) {i : Nat}
    (d : α) (d' : β) (hi : i < l.length) :
    (l.map f).getD i d' = f (l.getD i d) := by
  rw [List.getD_eq_getElem _ _ (by simpa using hi), List.getElem_map,
    List.getD_eq_getElem _ _ hi]

/-! ## Concrete test inputs shared by the witnesses -/

/-- Two objects whose centroids are five units apart. -/
def exObjects : List PyObject := [⟨[0, 0], 1⟩, ⟨[3, 4], 2⟩]

/-- A configuration carrying both keys the builder reads. -/
def exConfig : Config := ⟨some (1 / 100), some false⟩

/-- An arbitrary image size (the builder never reads it). -/
def exImage : List Int := [10, 10]

/-- The graph the builder produces on `exObjects`: squared distance 25 gives
weight `1/26 > 1/100`, so the pair is connected in both directions. -/
def exGraph : DGLGraph :=
  ⟨2, [[0, 0], [3, 4]], [1, 2], [(0, 1), (1, 0)]⟩

/-- Evaluation of the pair loop on the concrete input: the single pair
`(0, 1)` has weight `1/26`, above the threshold `1/100`. Rational arithmetic
does not reduce in the kernel, so this is settled by `norm_num`. -/
theorem exTopologyEdgeList :
    topologyEdgeList (1 / 100) [[0, 0], [3, 4]] 2 = [(0, 1), (1, 0)] := by
  have h : combinations2 2 = [(0, 1)] := rfl
  rw [topologyEdgeList, h]
  norm_num [compute_edge_weight, compute_l2_distance]

/-- The builder on the concrete input returns `exGraph`. -/
theorem exCallEq :
    KNNGraphBuilder.call exConfig exObjects exImage = Except.ok exGraph := by
  have h1 : KNNGraphBuilder.call exConfig exObjects exImage =
      Except.ok ⟨2, [[0, 0], [3, 4]], [1, 2],
        topologyEdgeList (1 / 100) [[0, 0], [3, 4]] 2⟩ := rfl
  rw [h1, exTopologyEdgeList]
  rfl

/-! ## Claims -/

/-- C1: for every non-empty object list, a successful `KNNGraphBuilder.call`
returns a graph with exactly `len(objects)` nodes, and node `i`'s `centroid`
and `label` attributes are copied verbatim from object `i`, in input order. -/
theorem C1_node_count_and_features (config : Config) (objects : List PyObject)
    (image_size : List Int) (g : DGLGraph) (hne : objects ≠ [])
    (h : KNNGraphBuilder.call config objects image_size = Except.ok g) :
    g.num_nodes = objects.length ∧
    g.ndata_centroid = objects.map (fun obj => obj.centroid) ∧
    g.ndata_label = objects.map (fun obj => obj.label) ∧
    ∀ i : Nat, i < objects.length →
      g.ndata_centroid.getD i [] = (objects.getD i ⟨[], 0⟩).centroid ∧
      g.ndata_label.getD i 0 = (objects.getD i ⟨[], 0⟩).label := by
  obtain ⟨el, hbt, ⟨enc, henc⟩, rfl⟩ := call_ok_inv h
  refine ⟨rfl, rfl, rfl, fun i hi => ⟨?_, ?_⟩⟩
  · exact map_getD_of_lt (fun o => o.centroid) objects ⟨[], 0⟩ [] hi
  · exact map_getD_of_lt (fun o => o.label) objects ⟨[], 0⟩ 0 hi

/-- Witness for C1 at a concrete two-object input. -/
theorem C1_witness :
    exGraph.num_nodes = exObjects.length ∧
    exGraph.ndata_centroid = exObjects.map (fun obj => obj.centroid) ∧
    exGraph.ndata_label = exObjects.map (fun obj => obj.label) ∧
    ∀ i : Nat, i < exObjects.length →
      exGraph.ndata_centroid.getD i [] = (exObjects.getD i ⟨[], 0⟩).centroid ∧
      exGraph.ndata_label.getD i 0 = (exObjects.getD i ⟨[], 0⟩).label :=
  C1_node_count_and_features exConfig exObjects exImage exGraph
    (by decide) exCallEq

/-- C2: the edge set of any graph returned by `KNNGraphBuilder.call` is
symmetric — directed edge `(i, j)` is present iff `(j, i)` is, never exactly
one direction — and contains no self-loop `(i, i)`. -/
theorem C2_symmetric_no_self_loops (config : Config) (objects : List PyObject)
    (image_size : List Int) (g : DGLGraph)
    (h : KNNGraphBuilder.call config objects image_size = Except.ok g) :
    (∀ i j : Nat, (i, j) ∈ g.edges ↔ (j, i) ∈ g.edges) ∧
    ∀ i : Nat, (i, i) ∉ g.edges := by
  obtain ⟨el, hbt, _, rfl⟩ := call_ok_inv h
  rcases build_topology_ok_inv hbt with ⟨_, rfl⟩ | ⟨thr, hthr, rfl⟩
  · simp
  · exact ⟨fun i j => topologyEdgeList_symm, fun i => topologyEdgeList_no_loop⟩

/-- Witness for C2 at a concrete two-object input. -/
theorem C2_witness :
    ((0, 1) ∈ exGraph.edges ↔ (1, 0) ∈ exGraph.edges) ∧
    (0, 0) ∉ exGraph.edges :=
  ⟨(C2_symmetric_no_self_loops exConfig exObjects exImage exGraph exCallEq).1 0 1,
   (C2_symmetric_no_self_loops exConfig exObjects exImage exGraph exCallEq).2 0⟩

/-- C3: distinct nodes `i`, `j` of a successfully built graph are connected
(both directed edges present) iff the edge weight computed from the distance
between their centroids exceeds the configured `edge_threshold`. -/
theorem C3_edge_iff_weight_above_threshold (config : Config)
    (objects : List PyObject) (image_size : List Int) (g : DGLGraph)
    (thr : Rat) (i j : Nat)
    (h : KNNGraphBuilder.call config objects image_size = Except.ok g)
    (hthr : config.edge_threshold = some thr)
    (hi : i < objects.length) (hj : j < objects.length) (hij : i ≠ j) :
    ((i, j) ∈ g.edges ∧ (j, i) ∈ g.edges) ↔
      thr < compute_edge_weight
        (compute_l2_distance (objects.getD i ⟨[], 0⟩).centroid
          (objects.getD j ⟨[], 0⟩).centroid) := by
  obtain ⟨el, hbt, _, rfl⟩ := call_ok_inv h
  rcases build_topology_ok_inv hbt with ⟨hc, rfl⟩ | ⟨thr', hthr', rfl⟩
  · rw [combinations2_eq_nil_iff] at hc
    omega
  · rw [hthr'] at hthr
    cases hthr
    have hci := map_getD_of_lt (fun o => o.centroid) objects ⟨[], 0⟩ [] hi
    have hcj := map_getD_of_lt (fun o => o.centroid) objects ⟨[], 0⟩ [] hj
    constructor
    · intro hmem
      have := (mem_topologyEdgeList_iff_weight hij hi hj).mp hmem.1
      rwa [hci, hcj] at this
    · intro hw
      have hmem := (mem_topologyEdgeList_iff_weight hij hi hj).mpr
        (by rwa [hci, hcj])
      exact ⟨hmem, topologyEdgeList_swap hmem⟩

/-- Witness for C3: on the concrete two-object input, the pair is connected
and the weight `1/26` indeed exceeds the threshold `1/100`. -/
theorem C3_witness :
    ((0, 1) ∈ exGraph.edges ∧ (1, 0) ∈ exGraph.edges) ↔
      (1 : Rat) / 100 < compute_edge_weight (compute_l2_distance [0, 0] [3, 4]) :=
  C3_edge_iff_weight_above_threshold exConfig exObjects exImage exGraph
    (1 / 100) 0 1 exCallEq rfl (by decide) (by decide) (by decide)

theorem build_topology_small {config : Config} {objects : List PyObject}
    (h : objects.length < 2) :
    KNNGraphBuilder.build_topology config objects = Except.ok [] := by
  simp only [KNNGraphBuilder.build_topology]
  rw [if_pos (combinations2_eq_nil_iff.mpr (by omega))]

theorem build_topology_missing_threshold {config : Config}
    {objects : List PyObject} (h : config.edge_threshold = none)
    (h2 : 2 ≤ objects.length) :
    KNNGraphBuilder.build_topology config objects =
      Except.error (PyError.keyError "edge_threshold") := by
  simp only [KNNGraphBuilder.build_topology, h, getKey]
  rw [if_neg (by rw [combinations2_eq_nil_iff]; omega)]

theorem build_topology_isOk_of_some {config : Config} {objects : List PyObject}
    {t : Rat} (h : config.edge_threshold = some t) :
    ∃ el, KNNGraphBuilder.build_topology config objects = Except.ok el := by
  simp only [KNNGraphBuilder.build_topology, h, getKey]
  by_cases hc : combinations2 objects.length = []
  · rw [if_pos hc]; exact ⟨[], rfl⟩
  · rw [if_neg hc]
    exact ⟨_, rfl⟩

/-- C4 counterexample: the claim "missing `edge_threshold` or `edge_encoding`
makes building fail with `ConfigurationError`" is false on the code. With
`edge_threshold` missing and a single object the builder succeeds outright
(the threshold is only read inside the pair loop), and with `edge_encoding`
missing the failure is a `KeyError`, which is not `ConfigurationError`. -/
theorem C4_counterexample :
    KNNGraphBuilder.call ⟨none, some false⟩ [⟨[0, 0], 0⟩] [5, 5] =
      Except.ok ⟨1, [[0, 0]], [0], []⟩ ∧
    KNNGraphBuilder.call ⟨some 1, none⟩ [⟨[0, 0], 0⟩] [5, 5] =
      Except.error (PyError.keyError "edge_encoding") ∧
    PyError.keyError "edge_encoding" ≠ PyError.configurationError :=
  ⟨rfl, rfl, by decide⟩

/-- C4 amended: a missing `edge_threshold` key makes building fail with
`KeyError 'edge_threshold'` when at least two objects are supplied (with
fewer, the key is never read and no failure arises from it); a missing
`edge_encoding` key makes building fail with `KeyError 'edge_encoding'`
whenever the topology step itself does not fail first. -/
theorem C4_missing_key_raises_KeyError (config : Config)
    (objects : List PyObject) (image_size : List Int) :
    (config.edge_threshold = none → 2 ≤ objects.length →
      KNNGraphBuilder.call config objects image_size =
        Except.error (PyError.keyError "edge_threshold")) ∧
    (config.edge_encoding = none → objects.length < 2 →
      KNNGraphBuilder.call config objects image_size =
        Except.error (PyError.keyError "edge_encoding")) ∧
    ∀ t : Rat, config.edge_threshold = some t → config.edge_encoding = none →
      KNNGraphBuilder.call config objects image_size =
        Except.error (PyError.keyError "edge_encoding") := by
  refine ⟨fun h h2 => ?_, fun henc hlen => ?_, fun t ht henc => ?_⟩
  · simp only [KNNGraphBuilder.call]
    rw [build_topology_missing_threshold h h2]
  · simp only [KNNGraphBuilder.call]
    rw [build_topology_small hlen, henc]
    rfl
  · obtain ⟨el, hel⟩ := @build_topology_isOk_of_some config objects t ht
    simp only [KNNGraphBuilder.call]
    rw [hel, henc]
    rfl

/-- Witness for the amended C4: a config with `edge_threshold` missing and
two objects fails with `KeyError 'edge_threshold'`. -/
theorem C4_witness :
    KNNGraphBuilder.call ⟨none, some true⟩ exObjects exImage =
      Except.error (PyError.keyError "edge_threshold") :=
  (C4_missing_key_raises_KeyError ⟨none, some true⟩ exObjects exImage).1
    rfl (by decide)

/-- C5: with fewer than two objects (and the `edge_encoding` key present, so
that the final config access succeeds), `KNNGraphBuilder.call` does not
fail: it returns a graph whose node count equals the object count, with
`centroid` and `label` node features set, and with an empty edge set. -/
theorem C5_small_input_no_crash (config : Config) (objects : List PyObject)
    (image_size : List Int) (b : Bool)
    (hlen : objects.length < 2) (henc : config.edge_encoding = some b) :
    KNNGraphBuilder.call config objects image_size =
      Except.ok ⟨objects.length, objects.map (fun o => o.centroid),
        objects.map (fun o => o.label), []⟩ := by
  simp only [KNNGraphBuilder.call]
  rw [build_topology_small hlen, henc]
  rfl

/-- Witness for C5 at a one-object input. -/
theorem C5_witness :
    KNNGraphBuilder.call exConfig [⟨[7, 8], 3⟩] exImage =
      Except.ok ⟨1, [[7, 8]], [3], []⟩ :=
  C5_small_input_no_crash exConfig [⟨[7, 8], 3⟩] exImage false (by decide) rfl

/-- C6: graph building is deterministic — two invocations on identical
object lists, configurations and image sizes return identical results. -/
theorem C6_deterministic (config1 config2 : Config)
    (objects1 objects2 : List PyObject) (s1 s2 : List Int)
    (hc : config1 = config2) (ho : objects1 = objects2) (hs : s1 = s2) :
    KNNGraphBuilder.call config1 objects1 s1 =
      KNNGraphBuilder.call config2 objects2 s2 := by
  subst hc; subst ho; subst hs; rfl

/-- Witness for C6 at the concrete two-object input. -/
theorem C6_witness :
    KNNGraphBuilder.call exConfig exObjects exImage =
      KNNGraphBuilder.call exConfig exObjects exImage :=
  C6_deterministic exConfig exConfig exObjects exObjects exImage exImage
    rfl rfl rfl

/-- C10: the `image_size` argument is never used — two calls differing only
in `image_size` return identical results — and the topology depends only on
the objects' centroids and the configured `edge_threshold`: object lists
with equal centroid sequences and configs with equal thresholds produce the
same topology result, whatever the labels and the `edge_encoding` entry. -/
theorem C10_image_size_unused :
    (∀ (config : Config) (objects : List PyObject) (s1 s2 : List Int),
      KNNGraphBuilder.call config objects s1 =
        KNNGraphBuilder.call config objects s2) ∧
    (∀ (config1 config2 : Config) (objects1 objects2 : List PyObject),
      objects1.map (fun o => o.centroid) = objects2.map (fun o => o.centroid) →
      config1.edge_threshold = config2.edge_threshold →
      KNNGraphBuilder.build_topology config1 objects1 =
        KNNGraphBuilder.build_topology config2 objects2) := by
  constructor
  · intro config objects s1 s2
    rfl
  · intro c1 c2 o1 o2 hc ht
    have hlen : o1.length = o2.length := by
      have h := congrArg List.length hc
      simpa using h
    simp only [KNNGraphBuilder.build_topology]
    rw [hlen, ht, hc]

/-- Witness for C10: changing the image size, the labels and the
`edge_encoding` entry leaves the call (resp. the topology) unchanged. -/
theorem C10_witness :
    KNNGraphBuilder.call exConfig exObjects [10, 10] =
      KNNGraphBuilder.call exConfig exObjects [999, 1] ∧
    KNNGraphBuilder.build_topology exConfig exObjects =
      KNNGraphBuilder.build_topology ⟨some (1 / 100), none⟩
        [⟨[0, 0], 9⟩, ⟨[3, 4], 7⟩] :=
  ⟨C10_image_size_unused.1 exConfig exObjects [10, 10] [999, 1],
   C10_image_size_unused.2 exConfig ⟨some (1 / 100), none⟩ exObjects
     [⟨[0, 0], 9⟩, ⟨[3, 4], 7⟩] rfl rfl⟩

/-! ## The explainer: mask-optimization loop (spec-modelled) -/

/-- Trace of one mask-optimization run: how many epoch iterations were
executed, and the final mask state. -/
structure MaskTrace (α : Type) where
  epochs_run : Nat
  final : α
  deriving Repr

/-- Modelled from the spec: the epoch loop of
`SingleInstanceExplainer.explain` (module
`histocartography.interpretability.single_instance_explainer`) is not under
`src/`; the spec prescribes "for each of `num_epochs` iterations" one
optimization step updating the mask. The step function is abstract: the
claim concerns only the iteration count. -/
def maskOptimize {α : Type} (step : α → α) (mask : α) : Nat → MaskTrace α
  | 0 => ⟨0, mask⟩
  | n + 1 =>
    let t := maskOptimize step (step mask) n
    ⟨t.epochs_run + 1, t.final⟩

/-- Modelled from the spec: the mask-optimization entry point of
`SingleInstanceExplainer.explain` (not under `src/`): it "always terminates
after exactly `num_epochs` steps" and "fails with `InvalidConfigError` if
`num_epochs <= 0`". `num_epochs` is an integer (it arrives as `args.epochs`
from the CLI in `run_explainer.py`). -/
def explainMaskLoop {α : Type} (step : α → α) (init : α) (num_epochs : Int) :
    Except PyError (MaskTrace α) :=
  if num_epochs ≤ 0 then Except.error PyError.invalidConfigError
  else Except.ok (maskOptimize step init num_epochs.toNat)

theorem maskOptimize_epochs_run {α : Type} (step : α → α) (mask : α)
    (n : Nat) : (maskOptimize step mask n).epochs_run = n := by
  induction n generalizing mask with
  | zero => rfl
  | succ m ih => simp [maskOptimize, ih]

/-- C7: the mask-optimization loop terminates after exactly `num_epochs`
iterations for every `num_epochs ≥ 1`, and with `num_epochs = 0` the explain
operation fails with `InvalidConfigError`. -/
theorem C7_loop_runs_exactly_num_epochs {α : Type} (step : α → α) (init : α)
    (num_epochs : Int) :
    (1 ≤ num_epochs →
      ∃ t : MaskTrace α, explainMaskLoop step init num_epochs = Except.ok t ∧
        (t.epochs_run : Int) = num_epochs) ∧
    (num_epochs = 0 →
      explainMaskLoop step init num_epochs =
        Except.error PyError.invalidConfigError) := by
  constructor
  · intro h
    rw [explainMaskLoop, if_neg (by omega)]
    refine ⟨_, rfl, ?_⟩
    rw [maskOptimize_epochs_run]
    omega
  · intro h
    rw [explainMaskLoop, if_pos (by omega)]

/-- Witness for C7: three epochs run exactly three iterations; zero epochs
fail with `InvalidConfigError`. -/
theorem C7_witness :
    (∃ t : MaskTrace Int, explainMaskLoop (fun m => m + 1) 0 3 = Except.ok t ∧
      (t.epochs_run : Int) = 3) ∧
    explainMaskLoop (fun m : Int => m + 1) 0 0 =
      Except.error PyError.invalidConfigError :=
  ⟨(C7_loop_runs_exactly_num_epochs (fun m => m + 1) 0 3).1 (by decide),
   (C7_loop_runs_exactly_num_epochs (fun m : Int => m + 1) 0 0).2 rfl⟩

/-! ## The explanation postprocessing of `run_explainer.main` -/

/-- Node filtering in `run_explainer.main`:
`node_idx = (feats.sum(dim=-1) != 0.).squeeze()` — a node survives iff its
masked feature row sums to a nonzero value (NOT iff the row is nonzero: a
row such as `[1, -1]` is nonzero but has zero sum). -/
def keptNodes (feats : List (List Rat)) : List Nat :=
  (List.range feats.length).filter fun i => decide ((feats.getD i []).sum ≠ 0)

/-- The explanation graph materialized by `run_explainer.main`: the masked
adjacency rows/columns are first restricted to `keptNodes` (translated from
the source's `adj[node_idx, :][:, node_idx]`), then `adj_to_networkx` is
applied. Modelled from the spec for the edge part: `adj_to_networkx`
(`histocartography.utils.graph`) is not under `src/`; the spec says the
explanation graph has "edges whose mask weight exceeds a configured
threshold". Nodes and edges are reported in original node numbering. -/
def explanationGraph (adj : List (List Rat)) (feats : List (List Rat))
    (threshold : Rat) : List Nat × List (Nat × Nat) :=
  let kept := keptNodes feats
  (kept,
   kept.flatMap fun i =>
     kept.filterMap fun j =>
       if threshold < (adj.getD i []).getD j 0 then some (i, j) else none)

/-- Masked adjacency with mask weights `(0,1) ↦ 9/10` and `(1,2) ↦ 1/10`. -/
def adjC8 : List (List Rat) := [[0, 9 / 10, 0], [0, 0, 1 / 10], [0, 0, 0]]

/-- Masked features whose row 0 is nonzero but sums to zero. -/
def featsC8 : List (List Rat) := [[1, -1], [2, 0], [3, 0]]

theorem mem_keptNodes {feats : List (List Rat)} {i : Nat} :
    i ∈ keptNodes feats ↔ i < feats.length ∧ (feats.getD i []).sum ≠ 0 := by
  simp [keptNodes, List.mem_filter, List.mem_range]

/-- C8 counterexample: the claim "the explanation graph keeps exactly the
nodes whose masked feature row is nonzero" is false on the code. Node 0's
feature row `[1, -1]` is nonzero (its first entry is `1 ≠ 0`) and the mask
weight of edge `(0, 1)` is `9/10 > 1/2`, yet the code drops node 0 (its row
SUM is zero) and with it edge `(0, 1)`: the result keeps nodes `[1, 2]` and
no edge at all. -/
theorem C8_counterexample :
    explanationGraph adjC8 featsC8 (1 / 2) = ([1, 2], []) ∧
    featsC8.getD 0 [] = [1, -1] ∧ (1 : Rat) ≠ 0 ∧
    (1 : Rat) / 2 < (adjC8.getD 0 []).getD 1 0 := by
  refine ⟨?_, rfl, one_ne_zero, by norm_num [adjC8]⟩
  have hk : keptNodes featsC8 = [1, 2] := by
    rw [keptNodes]
    norm_num [featsC8, List.range_succ]
  rw [explanationGraph, hk]
  norm_num [adjC8]

/-- C8 amended: the explanation graph keeps exactly the nodes whose masked
feature row has a nonzero SUM (the source tests `feats.sum(dim=-1) != 0`,
which agrees with "nonzero row" only for, e.g., nonnegative features), and
exactly the ordered pairs of kept nodes whose mask weight exceeds the
configured adjacency threshold — so with mask values `(0,1) ↦ 0.9`,
`(1,2) ↦ 0.1`, threshold `0.5` and all rows of nonzero sum, edge `(0,1)` is
retained and `(1,2)` dropped. -/
theorem C8_threshold_postprocessing (adj feats : List (List Rat))
    (threshold : Rat) :
    (∀ i : Nat, i ∈ (explanationGraph adj feats threshold).1 ↔
        i < feats.length ∧ (feats.getD i []).sum ≠ 0) ∧
    ∀ i j : Nat, (i, j) ∈ (explanationGraph adj feats threshold).2 ↔
        i ∈ (explanationGraph adj feats threshold).1 ∧
        j ∈ (explanationGraph adj feats threshold).1 ∧
        threshold < (adj.getD i []).getD j 0 := by
  constructor
  · intro i
    exact mem_keptNodes
  · intro i j
    simp only [explanationGraph, List.mem_flatMap, List.mem_filterMap]
    constructor
    · rintro ⟨a, ha, b, hb, h⟩
      by_cases hc : threshold < (adj.getD a []).getD b 0
      · rw [if_pos hc] at h
        rw [Option.some.injEq, Prod.mk.injEq] at h
        obtain ⟨rfl, rfl⟩ := h
        exact ⟨ha, hb, hc⟩
      · rw [if_neg hc] at h
        exact Option.noConfusion h
    · rintro ⟨hi, hj, hc⟩
      exact ⟨i, hi, j, hj, by rw [if_pos hc]⟩

/-! ## The JSON metadata written by `run_explainer.main` -/

/-- JSON values, as produced by the metadata writer. -/
inductive Json
  | str (s : String)
  | int (n : Int)
  | num (q : Rat)
  | arr (elems : List Json)
  | obj (fields : List (String × Json))

/-- Field access on a JSON object (first binding wins, as in a dict whose
keys are distinct). -/
def Json.getField : Json → String → Option Json
  | Json.obj fields, key => List.lookup key fields
  | _, _ => none

/-- Whether a JSON value is a number. -/
def Json.isNum : Json → Bool
  | Json.int _ => true
  | Json.num _ => true
  | _ => false

/-- Whether a JSON value is a numeric sequence (an array of numbers) — the
shape the claim asserts for the prediction fields. -/
def Json.isNumericSeq : Json → Bool
  | Json.arr elems => elems.all Json.isNum
  | _ => false

/-- `np.around(x, 2)`: round to two decimals, ties to even (NumPy uses
banker's rounding). -/
def around2 (q : Rat) : Rat :=
  let s := q * 100
  let f : Int := ⌊s⌋
  let r : Int :=
    if s - f < 1 / 2 then f
    else if 1 / 2 < s - f then f + 1
    else if f % 2 = 0 then f else f + 1
  (r : Rat) / 100

/-- Python `str` of one entry of `np.around(pred, 2)` (a value with at most
two decimals): shortest decimal form with at least one fractional digit. -/
def floatStr (q : Rat) : String :=
  let r : Int := ⌊q * 100⌋
  let sign := if r < 0 then "-" else ""
  let a := r.natAbs
  let fp := a % 100
  let frac :=
    if fp % 10 = 0 then toString (fp / 10)
    else (if fp < 10 then "0" else "") ++ toString fp
  sign ++ toString (a / 100) ++ "." ++ frac

/-- `str(list(np.around(pred, 2)))` as the source computes for the
`prediction` and `explanation_prediction` fields: the Python STRING rendering
of the rounded prediction list. -/
def strOfRoundedList (pred : List Rat) : String :=
  "[" ++ String.intercalate ", " (pred.map fun q => floatStr (around2 q)) ++ "]"

/-- The metadata dict built at the end of `run_explainer.main` (steps 3-a,
3-b, 2-c of the source) and handed to `write_json`: the explainer config with
`number_of_epochs` and `learning_rate` added, then under `output` the
original graph's `prediction`/`number_of_nodes`/`number_of_edges` and the
explanation graph's `number_of_nodes`/`number_of_edges`/
`explanation_prediction`. The two prediction fields are
`str(list(np.around(pred, 2)))` — strings. -/
def buildMetaData (explainer_config : List (String × Json)) (epochs : Int)
    (lr : Rat) (orig_pred exp_pred : List Rat)
    (orig_nodes orig_edges exp_nodes exp_edges : Nat) : Json :=
  Json.obj
    [("config", Json.obj (explainer_config ++
        [("number_of_epochs", Json.int epochs),
         ("learning_rate", Json.num lr)])),
     ("output", Json.obj
       [("original", Json.obj
          [("prediction", Json.str (strOfRoundedList orig_pred)),
           ("number_of_nodes", Json.int orig_nodes),
           ("number_of_edges", Json.int orig_edges)]),
        ("explanation", Json.obj
          [("number_of_nodes", Json.int exp_nodes),
           ("number_of_edges", Json.int exp_edges),
           ("explanation_prediction",
            Json.str (strOfRoundedList exp_pred))])])]

theorem strOfRoundedList_quarters :
    strOfRoundedList [1 / 4, 3 / 4] = "[0.25, 0.75]" := by
  have h1 : around2 (1 / 4 : Rat) = 25 / 100 := by norm_num [around2]
  have h2 : around2 (3 / 4 : Rat) = 75 / 100 := by norm_num [around2]
  have h3 : floatStr (25 / 100 : Rat) = "0.25" := by
    have h : (⌊(25 / 100 : Rat) * 100⌋ : Int) = 25 := by norm_num
    simp only [floatStr, h]
    rfl
  have h4 : floatStr (75 / 100 : Rat) = "0.75" := by
    have h : (⌊(75 / 100 : Rat) * 100⌋ : Int) = 75 := by norm_num
    simp only [floatStr, h]
    rfl
  rw [strOfRoundedList, List.map_cons, List.map_cons, List.map_nil,
    h1, h2, h3, h4]
  rfl

/-- C9 counterexample: the claim that "the original and explanation
prediction vectors are numeric sequences" in the written JSON is false on
the code. For a concrete prediction vector `[0.25, 0.75]`, the field
`output.original.prediction` holds the JSON STRING `"[0.25, 0.75]"` (the
Python `str` of the rounded list), which is not a numeric sequence. -/
theorem C9_counterexample :
    (((buildMetaData [] 10 (1 / 100) [1 / 4, 3 / 4] [1 / 4, 3 / 4]
        5 8 3 2).getField "output").bind
      (fun o => o.getField "original")).bind
        (fun o => o.getField "prediction") =
      some (Json.str "[0.25, 0.75]") ∧
    Json.isNumericSeq (Json.str "[0.25, 0.75]") = false := by
  constructor
  · have h0 : (((buildMetaData [] 10 (1 / 100) [1 / 4, 3 / 4] [1 / 4, 3 / 4]
        5 8 3 2).getField "output").bind
      (fun o => o.getField "original")).bind
        (fun o => o.getField "prediction") =
        some (Json.str (strOfRoundedList [1 / 4, 3 / 4])) := rfl
    rw [h0, strOfRoundedList_quarters]
  · rfl

/-- C9 amended: the JSON metadata has exactly the claimed key structure
(`config`, and `output.original.prediction` / `number_of_nodes` /
`number_of_edges`, `output.explanation.number_of_nodes` /
`number_of_edges` / `explanation_prediction`), but the two prediction
fields hold the string rendering of the rounded prediction vectors — JSON
strings, not numeric sequences. -/
theorem C9_metadata_schema (explainer_config : List (String × Json))
    (epochs : Int) (lr : Rat) (orig_pred exp_pred : List Rat)
    (orig_nodes orig_edges exp_nodes exp_edges : Nat) :
    (buildMetaData explainer_config epochs lr orig_pred exp_pred
        orig_nodes orig_edges exp_nodes exp_edges).getField "config" =
      some (Json.obj (explainer_config ++
        [("number_of_epochs", Json.int epochs),
         ("learning_rate", Json.num lr)])) ∧
    (((buildMetaData explainer_config epochs lr orig_pred exp_pred
        orig_nodes orig_edges exp_nodes exp_edges).getField "output").bind
      (fun o => o.getField "original")).bind (fun o => o.getField "prediction") =
      some (Json.str (strOfRoundedList orig_pred)) ∧
    (((buildMetaData explainer_config epochs lr orig_pred exp_pred
        orig_nodes orig_edges exp_nodes exp_edges).getField "output").bind
      (fun o => o.getField "original")).bind
        (fun o => o.getField "number_of_nodes") =
      some (Json.int orig_nodes) ∧
    (((buildMetaData explainer_config epochs lr orig_pred exp_pred
        orig_nodes orig_edges exp_nodes exp_edges).getField "output").bind
      (fun o => o.getField "original")).bind
        (fun o => o.getField "number_of_edges") =
      some (Json.int orig_edges) ∧
    (((buildMetaData explainer_config epochs lr orig_pred exp_pred
        orig_nodes orig_edges exp_nodes exp_edges).getField "output").bind
      (fun o => o.getField "explanation")).bind
        (fun o => o.getField "number_of_nodes") =
      some (Json.int exp_nodes) ∧
    (((buildMetaData explainer_config epochs lr orig_pred exp_pred
        orig_nodes orig_edges exp_nodes exp_edges).getField "output").bind
      (fun o => o.getField "explanation")).bind
        (fun o => o.getField "number_of_edges") =
      some (Json.int exp_edges) ∧
    (((buildMetaData explainer_config epochs lr orig_pred exp_pred
        orig_nodes orig_edges exp_nodes exp_edges).getField "output").bind
      (fun o => o.getField "explanation")).bind
        (fun o => o.getField "explanation_prediction") =
      some (Json.str (strOfRoundedList exp_pred)) ∧
    Json.isNumericSeq (Json.str (strOfRoundedList orig_pred)) = false ∧
    Json.isNumericSeq (Json.str (strOfRoundedList exp_pred)) = false :=
  ⟨rfl, rfl, rfl, rfl, rfl, rfl, rfl, rfl, rfl⟩

/-- Witness for the amended C8 at the concrete mask of the claim's example
(node 1, node 2 and the pair `(1, 2)`). -/
theorem C8_witness :
    (1 ∈ (explanationGraph adjC8 featsC8 (1 / 2)).1 ↔
      1 < featsC8.length ∧ (featsC8.getD 1 []).sum ≠ 0) ∧
    ((1, 2) ∈ (explanationGraph adjC8 featsC8 (1 / 2)).2 ↔
      1 ∈ (explanationGraph adjC8 featsC8 (1 / 2)).1 ∧
      2 ∈ (explanationGraph adjC8 featsC8 (1 / 2)).1 ∧
      (1 : Rat) / 2 < (adjC8.getD 1 []).getD 2 0) :=
  ⟨(C8_threshold_postprocessing adjC8 featsC8 (1 / 2)).1 1,
   (C8_threshold_postprocessing adjC8 featsC8 (1 / 2)).2 1 2⟩

/-- Witness for the amended C9 at a concrete instance: the `config` field of
the written metadata. -/
theorem C9_witness :
    (buildMetaData [] 10 (1 / 100) [1 / 4, 3 / 4] [1 / 4, 3 / 4]
        5 8 3 2).getField "config" =
      some (Json.obj
        [("number_of_epochs", Json.int 10),
         ("learning_rate", Json.num (1 / 100))]) :=
  (C9_metadata_schema [] 10 (1 / 100) [1 / 4, 3 / 4] [1 / 4, 3 / 4]
    5 8 3 2).1
